import Mathlib

/-!
Verification of the DMA transfer descriptor/validator/executor and the SD/MMC
command response decoder of the sd-card-party repository, via a shallow
embedding of `src/dma/mod.rs` and `src/sd/command.rs`.

Machine integers are modelled as `Nat`; every arithmetic operation the Rust
code performs is within range of its machine type (checked where it matters),
except where an explicit `% 2 ^ 32` appears. Register files are modelled as
explicit state records passed through the state-mutating operations.
-/

/-! ## DMA data model (src/dma/mod.rs) -/

/-- FIFO_SIZE constant from src/dma/mod.rs. -/
def FIFO_SIZE : Nat := 16

/-- Validation / runtime errors of the DMA layer (enum Error). -/
inductive Error where
  | StreamNotReady
  | TransactionCountNotAMultipleOf (factor : Nat)
  | UnalignedMemoryAddress
  | UnalignedPeripheralAddress
  | CannotUseMemoryToMemoryTransferWithCircularMode
  | CannotUseMemoryToMemoryTransferWithDirectMode
  | MemoryAccessWouldCrossOneKilobyteBoundary
  | PeripheralAccessWouldCrossOneKilobyteBoundary
  | InvalidFifoThresholdMemoryBurstCombination
deriving DecidableEq

/-- The eight DMA streams. -/
inductive DmaStream where
  | S0 | S1 | S2 | S3 | S4 | S5 | S6 | S7
deriving DecidableEq

/-- The eight DMA channels. -/
inductive Channel where
  | C0 | C1 | C2 | C3 | C4 | C5 | C6 | C7
deriving DecidableEq

/-- Burst modes (enum BurstMode, discriminants 0b00..0b11). -/
inductive BurstMode where
  | SingleTransfer | Incremental4 | Incremental8 | Incremental16
deriving DecidableEq

/-- Numeric discriminant of a BurstMode (its `as u32` value). -/
def BurstMode.toBits : BurstMode → Nat
  | .SingleTransfer => 0
  | .Incremental4 => 1
  | .Incremental8 => 2
  | .Incremental16 => 3

/-- BurstMode::get_size: 1 for SingleTransfer, else 1 << (discriminant + 1). -/
def BurstMode.get_size (b : BurstMode) : Nat :=
  match b with
  | .SingleTransfer => 1
  | _ => 1 <<< (b.toBits + 1)

/-- Memory buffer index for double buffering. -/
inductive MemoryIndex where
  | M0 | M1
deriving DecidableEq

/-- Double buffering mode; the second-buffer pointer is an address-sized integer. -/
inductive DoubleBufferingMode where
  | Disable
  | UseSecondBuffer (addr : Nat)
deriving DecidableEq

/-- Stream priority levels. -/
inductive PriorityLevel where
  | Low | Medium | High | VeryHigh
deriving DecidableEq

/-- Peripheral increment offset size policy. -/
inductive PeripheralIncrementOffsetSize where
  | UsePSize | Force32Bit
deriving DecidableEq

/-- Transaction widths (enum Width, discriminants 0b00..0b10). -/
inductive Width where
  | Byte | HalfWord | Word
deriving DecidableEq

/-- Numeric discriminant of a Width (its `as u32` value). -/
def Width.toBits : Width → Nat
  | .Byte => 0
  | .HalfWord => 1
  | .Word => 2

/-- Width::get_size: 1 << discriminant, i.e. 1, 2 or 4 bytes. -/
def Width.get_size (w : Width) : Nat :=
  1 <<< w.toBits

/-- Endpoint address increment mode. -/
inductive IncrementMode where
  | Fixed | Increment
deriving DecidableEq

/-- Circular mode flag. -/
inductive CircularMode where
  | Disable | Enable
deriving DecidableEq

/-- Transfer direction. -/
inductive Direction where
  | PeripheralToMemory | MemoryToPeripheral | MemoryToMemory
deriving DecidableEq

/-- Flow controller selection (source spells it FlowContoller). -/
inductive FlowContoller where
  | DMA | Peripheral
deriving DecidableEq

/-- Interrupt enable flags. -/
inductive InterruptControl where
  | Disable | Enable
deriving DecidableEq

/-- Sticky interrupt status flags. -/
inductive InterruptState where
  | NotRaised | Raised
deriving DecidableEq

/-- Stream enable register value. -/
inductive StreamControl where
  | Disable | Enable
deriving DecidableEq

/-- Direct mode flag (note: hardware encoding is inverted, Enable = 0). -/
inductive DirectMode where
  | Enable | Disable
deriving DecidableEq

/-- FIFO threshold levels. -/
inductive FifoThreshold where
  | Quarter | Half | ThreeQuarter | Full
deriving DecidableEq

/-- FifoThreshold::get_numerator. -/
def FifoThreshold.get_numerator : FifoThreshold → Nat
  | .Quarter => 1
  | .Half => 2
  | .ThreeQuarter => 3
  | .Full => 4

/-- FifoThreshold::get_denominator, hard-coded 4. -/
def FifoThreshold.get_denominator : FifoThreshold → Nat :=
  fun _ => 4

/-- One endpoint of a transfer (struct DmaTransferNode); the raw pointer is an
address-sized integer. -/
structure DmaTransferNode where
  address : Nat
  burst_mode : BurstMode
  increment_mode : IncrementMode
  transaction_width : Width
deriving DecidableEq

/-- The DMA transfer descriptor (struct DmaTransfer). The reference-counted
handle to the DmaManager is not part of the pure descriptor here; the
state-mutating operations take the register state explicitly instead. -/
structure DmaTransfer where
  stream : DmaStream
  channel : Channel
  priority : PriorityLevel
  direction : Direction
  circular_mode : CircularMode
  double_buffering_mode : DoubleBufferingMode
  flow_controller : FlowContoller
  peripheral_increment_offset_size : PeripheralIncrementOffsetSize
  peripheral : DmaTransferNode
  memory : DmaTransferNode
  transaction_count : Nat
  direct_mode : DirectMode
  fifo_threshold : FifoThreshold
  interrupt_transfer_complete : InterruptControl
  interrupt_half_transfer : InterruptControl
  interrupt_transfer_error : InterruptControl
  interrupt_direct_mode_error : InterruptControl
  interrupt_fifo : InterruptControl
deriving DecidableEq

/-- DmaTransfer::new: constructor filling in the documented defaults; the
direct-mode flag is derived from `transaction_count as u32 * pwidth` compared
against FIFO_SIZE (u32 arithmetic, hence the explicit 2^32 reduction). -/
def DmaTransfer.new (stream : DmaStream) (channel : Channel) (direction : Direction)
    (peripheral : DmaTransferNode) (memory : DmaTransferNode)
    (transaction_count : Nat) : DmaTransfer :=
  let pwidth := peripheral.transaction_width.get_size
  { stream := stream
    channel := channel
    priority := PriorityLevel.Medium
    direction := direction
    circular_mode := CircularMode.Disable
    double_buffering_mode := DoubleBufferingMode.Disable
    flow_controller := FlowContoller.DMA
    peripheral_increment_offset_size := PeripheralIncrementOffsetSize.UsePSize
    peripheral := peripheral
    memory := memory
    transaction_count := transaction_count
    direct_mode := if transaction_count * pwidth % 2 ^ 32 >= FIFO_SIZE then
        DirectMode.Disable
      else
        DirectMode.Enable
    fifo_threshold := FifoThreshold.Full
    interrupt_transfer_complete := InterruptControl.Enable
    interrupt_half_transfer := InterruptControl.Disable
    interrupt_transfer_error := InterruptControl.Enable
    interrupt_direct_mode_error := InterruptControl.Enable
    interrupt_fifo := InterruptControl.Enable }

/-- Local `mwidth` of is_valid: memory transaction width in bytes. -/
def DmaTransfer.mwidth (t : DmaTransfer) : Nat :=
  t.memory.transaction_width.get_size

/-- Local `pwidth` of is_valid: effective peripheral width in bytes (forced to
4 when the increment offset size policy is Force32Bit). -/
def DmaTransfer.pwidth (t : DmaTransfer) : Nat :=
  match t.peripheral_increment_offset_size with
  | PeripheralIncrementOffsetSize.Force32Bit => 4
  | PeripheralIncrementOffsetSize.UsePSize => t.peripheral.transaction_width.get_size

/-- Local `mburst_size` of is_valid: memory burst size in bytes. -/
def DmaTransfer.mburst_size (t : DmaTransfer) : Nat :=
  t.memory.burst_mode.get_size * t.mwidth

/-- Local `pburst_size` of is_valid: peripheral burst size in bytes. -/
def DmaTransfer.pburst_size (t : DmaTransfer) : Nat :=
  t.peripheral.burst_mode.get_size * t.pwidth

/-- Local `mcount_factor` of is_valid: memory-burst-bytes / effective
peripheral width (integer division, may truncate to 0). -/
def DmaTransfer.mcount_factor (t : DmaTransfer) : Nat :=
  t.mburst_size / t.pwidth

/-- Local `pcount_factor` of is_valid: peripheral-burst-bytes. -/
def DmaTransfer.pcount_factor (t : DmaTransfer) : Nat :=
  t.pburst_size

/-- Local `mdata_before_first_kb_boundary` of is_valid. -/
def DmaTransfer.mdata_before_first_kb_boundary (t : DmaTransfer) : Nat :=
  1024 - t.memory.address % 1024

/-- Local `pdata_before_first_kb_boundary` of is_valid. -/
def DmaTransfer.pdata_before_first_kb_boundary (t : DmaTransfer) : Nat :=
  1024 - t.peripheral.address % 1024

/-- Local `mdata_size` of is_valid: total bytes touched on the memory side. -/
def DmaTransfer.mdata_size (t : DmaTransfer) : Nat :=
  t.mwidth * match t.memory.increment_mode with
    | IncrementMode.Increment => t.transaction_count
    | IncrementMode.Fixed => 1

/-- Local `pdata_size` of is_valid: total bytes touched on the peripheral side. -/
def DmaTransfer.pdata_size (t : DmaTransfer) : Nat :=
  t.pwidth * match t.peripheral.increment_mode with
    | IncrementMode.Increment => t.transaction_count
    | IncrementMode.Fixed => 1

/-- DmaTransfer::is_valid: the nine-rule validator, checks in source order,
first violated rule decides the error. -/
def DmaTransfer.is_valid (t : DmaTransfer) : Option Error :=
  if t.mcount_factor = 0 ∨ t.transaction_count % t.mcount_factor ≠ 0 then
    some (Error.TransactionCountNotAMultipleOf t.mcount_factor)
  else if t.transaction_count % t.pcount_factor ≠ 0 then
    some (Error.TransactionCountNotAMultipleOf t.pcount_factor)
  else if t.peripheral.address % t.peripheral.transaction_width.get_size ≠ 0 then
    some Error.UnalignedPeripheralAddress
  else if t.memory.address % t.memory.transaction_width.get_size ≠ 0 then
    some Error.UnalignedMemoryAddress
  else if (t.circular_mode = CircularMode.Enable ∨
      t.double_buffering_mode ≠ DoubleBufferingMode.Disable) ∧
      t.direction = Direction.MemoryToMemory then
    some Error.CannotUseMemoryToMemoryTransferWithCircularMode
  else if t.direct_mode = DirectMode.Enable ∧ t.direction = Direction.MemoryToMemory then
    some Error.CannotUseMemoryToMemoryTransferWithDirectMode
  else if t.mdata_before_first_kb_boundary > t.mdata_size ∧
      t.mdata_before_first_kb_boundary % t.mburst_size ≠ 0 then
    some Error.MemoryAccessWouldCrossOneKilobyteBoundary
  else if t.pdata_before_first_kb_boundary > t.pdata_size ∧
      t.pdata_before_first_kb_boundary % t.pburst_size ≠ 0 then
    some Error.PeripheralAccessWouldCrossOneKilobyteBoundary
  else if (t.fifo_threshold.get_numerator * FIFO_SIZE) %
      (t.fifo_threshold.get_denominator * t.mburst_size) ≠ 0 then
    some Error.InvalidFifoThresholdMemoryBurstCombination
  else
    none

/-! ## DMA register state and execution (src/dma/mod.rs, execution part)

The per-stream register block of the controller (detail::Dma setters and the
sticky status flags). The controller state is a function from streams to
per-stream register blocks; `write_stream` mutates exactly one stream's block,
mirroring that every setter takes the stream as its first argument. -/

/-- Per-stream register block: sticky status flags, the stream-enable bit and
the configuration fields written by DmaTransfer::configure. -/
structure StreamRegs where
  en : StreamControl
  htif : InterruptState
  tcif : InterruptState
  teif : InterruptState
  feif : InterruptState
  dmeif : InterruptState
  channel : Channel
  pl : PriorityLevel
  dir : Direction
  circ : CircularMode
  dbm : DoubleBufferingMode
  pfctrl : FlowContoller
  psize : Width
  pinc : IncrementMode
  pburst : BurstMode
  pincos : PeripheralIncrementOffsetSize
  par : Nat
  msize : Width
  minc : IncrementMode
  mburst : BurstMode
  m0ar : Nat
  ndtr : Nat
  dmdis : DirectMode
  fth : FifoThreshold
  tcie : InterruptControl
  htie : InterruptControl
  teie : InterruptControl
  dmeie : InterruptControl
  feie : InterruptControl
deriving DecidableEq

/-- The whole controller register state: one register block per stream. -/
def DmaState := DmaStream → StreamRegs

/-- Update the register block of one stream, leaving all other streams alone. -/
def write_stream (s : DmaState) (st : DmaStream) (f : StreamRegs → StreamRegs) : DmaState :=
  fun x => if x = st then f (s x) else s x

/-- set_sxcr_en: write the stream-enable bit of one stream. -/
def set_sxcr_en (s : DmaState) (st : DmaStream) (v : StreamControl) : DmaState :=
  write_stream s st (fun r => { r with en := v })

/-- DmaTransfer::is_running: the stream-enable readback equals Enable. -/
def DmaTransfer.is_running (t : DmaTransfer) (s : DmaState) : Bool :=
  (s t.stream).en = StreamControl.Enable

/-- DmaTransfer::is_finished: the transfer-complete flag is raised. -/
def DmaTransfer.is_finished (t : DmaTransfer) (s : DmaState) : Bool :=
  (s t.stream).tcif = InterruptState.Raised

/-- DmaTransfer::is_transfer_error. -/
def DmaTransfer.is_transfer_error (t : DmaTransfer) (s : DmaState) : Bool :=
  (s t.stream).teif = InterruptState.Raised

/-- DmaTransfer::is_direct_mode_error. -/
def DmaTransfer.is_direct_mode_error (t : DmaTransfer) (s : DmaState) : Bool :=
  (s t.stream).dmeif = InterruptState.Raised

/-- DmaTransfer::is_error: transfer error or direct mode error. -/
def DmaTransfer.is_error (t : DmaTransfer) (s : DmaState) : Bool :=
  t.is_transfer_error s || t.is_direct_mode_error s

/-- DmaTransfer::is_active: enabled and neither finished nor errored. -/
def DmaTransfer.is_active (t : DmaTransfer) (s : DmaState) : Bool :=
  t.is_running s && !t.is_finished s && !t.is_error s

/-- DmaTransfer::is_ready: the stream is not active. -/
def DmaTransfer.is_ready (t : DmaTransfer) (s : DmaState) : Bool :=
  !t.is_active s

/-- DmaTransfer::configure: clears the five sticky status flags of the
descriptor's stream, then writes every configuration field, in source order. -/
def DmaTransfer.configure (t : DmaTransfer) (s : DmaState) : DmaState :=
  write_stream s t.stream (fun r =>
    { r with
      htif := InterruptState.NotRaised
      tcif := InterruptState.NotRaised
      teif := InterruptState.NotRaised
      feif := InterruptState.NotRaised
      dmeif := InterruptState.NotRaised
      channel := t.channel
      pl := t.priority
      dir := t.direction
      circ := t.circular_mode
      dbm := t.double_buffering_mode
      pfctrl := t.flow_controller
      psize := t.peripheral.transaction_width
      pinc := t.peripheral.increment_mode
      pburst := t.peripheral.burst_mode
      pincos := t.peripheral_increment_offset_size
      par := t.peripheral.address
      msize := t.memory.transaction_width
      minc := t.memory.increment_mode
      mburst := t.memory.burst_mode
      m0ar := t.memory.address
      ndtr := t.transaction_count
      dmdis := t.direct_mode
      fth := t.fifo_threshold
      tcie := t.interrupt_transfer_complete
      htie := t.interrupt_half_transfer
      teie := t.interrupt_transfer_error
      dmeie := t.interrupt_direct_mode_error
      feie := t.interrupt_fifo })

/-- DmaTransfer::start: re-validates; on a validator error fails immediately
with that error and touches no register; otherwise requires the stream to be
ready, configures it and enables the stream. -/
def DmaTransfer.start (t : DmaTransfer) (s : DmaState) :
    Except Error Unit × DmaState :=
  match t.is_valid with
  | none =>
    if t.is_ready s then
      (Except.ok (), set_sxcr_en (t.configure s) t.stream StreamControl.Enable)
    else
      (Except.error Error.StreamNotReady, s)
  | some e => (Except.error e, s)

/-- DmaTransfer::stop: unconditionally disables the stream. -/
def DmaTransfer.stop (t : DmaTransfer) (s : DmaState) : DmaState :=
  set_sxcr_en s t.stream StreamControl.Disable

/-- Value DmaTransfer::wait returns once its busy-poll loop has exited at
register snapshot s: the transfer ended without error. -/
def DmaTransfer.wait_value (t : DmaTransfer) (s : DmaState) : Bool :=
  !t.is_error s

/-- DmaTransfer::execute: start, then wait, then stop. The busy-poll of wait()
is abstracted by the hardware evolution `hw`: the register state the poll loop
observes when it exits is `hw` applied to the state start() produced (the
hardware, not the software, flips the status flags that end the poll). -/
def DmaTransfer.execute (hw : DmaState → DmaState) (t : DmaTransfer) (s : DmaState) :
    Except Error Bool × DmaState :=
  match t.start s with
  | (Except.ok _, s1) =>
    let s2 := hw s1
    let result := t.wait_value s2
    (Except.ok result, t.stop s2)
  | (Except.error e, s1) => (Except.error e, s1)

/-- A reset register block: stream disabled, no flags raised, neutral
configuration values. -/
def resetRegs : StreamRegs :=
  { en := StreamControl.Disable
    htif := InterruptState.NotRaised
    tcif := InterruptState.NotRaised
    teif := InterruptState.NotRaised
    feif := InterruptState.NotRaised
    dmeif := InterruptState.NotRaised
    channel := Channel.C0
    pl := PriorityLevel.Low
    dir := Direction.PeripheralToMemory
    circ := CircularMode.Disable
    dbm := DoubleBufferingMode.Disable
    pfctrl := FlowContoller.DMA
    psize := Width.Byte
    pinc := IncrementMode.Fixed
    pburst := BurstMode.SingleTransfer
    pincos := PeripheralIncrementOffsetSize.UsePSize
    par := 0
    msize := Width.Byte
    minc := IncrementMode.Fixed
    mburst := BurstMode.SingleTransfer
    m0ar := 0
    ndtr := 0
    dmdis := DirectMode.Enable
    fth := FifoThreshold.Quarter
    tcie := InterruptControl.Disable
    htie := InterruptControl.Disable
    teie := InterruptControl.Disable
    dmeie := InterruptControl.Disable
    feie := InterruptControl.Disable }

/-- Controller state with every stream at reset. -/
def resetState : DmaState := fun _ => resetRegs

/-- Controller state in which every stream is armed (enable bit set) and no
status flag is raised. -/
def armedState : DmaState := fun _ => { resetRegs with en := StreamControl.Enable }

/-! ## SD/MMC command response decoding (src/sd/command.rs)

The low_level error code constants are modelled as one closed enumeration.
The controller status registers visible to the response decoders are the
three sticky status bits (command timeout, command CRC failure, command
response end), the command-sent bit, the echoed command index register
(respcmd) and the first response register (resp1). Each get_responseN
function below models ONE iteration of the source's bounded polling loop,
acting on a snapshot of the registers: `none` means no terminal condition was
observed (the loop polls again; the overall software-timeout bookkeeping is
external tick counting), `some (code, s)` means the wait returns `code`
leaving the registers in state `s`. -/

/-- SD/MMC error codes (the low_level constants used by command.rs). -/
inductive SdmmcErrorCode where
  | NONE
  | TIMEOUT
  | CMD_RSP_TIMEOUT
  | CMD_CRC_FAIL
  | ADDR_OUT_OF_RANGE
  | ADDR_MISALIGNED
  | BLOCK_LEN_ERR
  | ERASE_SEQ_ERR
  | BAD_ERASE_PARAM
  | WRITE_PROT_VIOLATION
  | LOCK_UNLOCK_FAILED
  | COM_CRC_FAILED
  | ILLEGAL_CMD
  | CARD_ECC_FAILED
  | CC_ERR
  | STREAM_READ_UNDERRUN
  | STREAM_WRITE_OVERRUN
  | CID_CSD_OVERWRITE
  | WP_ERASE_SKIP
  | CARD_ECC_DISABLED
  | ERASE_RESET
  | AKE_SEQ_ERR
  | GENERAL_UNKNOWN_ERR
deriving DecidableEq

/-- check_ocr_error_bits: pure decoding of a 32-bit R1 card-status word into
an error code, in source order: the any-error mask first (success when clear),
then one listed bit per branch from bit 31 down, general-unknown-error last. -/
def check_ocr_error_bits (resp1 : Nat) : SdmmcErrorCode :=
  if resp1 &&& 0xFDFFE008 = 0 then
    SdmmcErrorCode.NONE
  else if resp1 &&& 0x80000000 = 0x80000000 then
    SdmmcErrorCode.ADDR_OUT_OF_RANGE
  else if resp1 &&& 0x40000000 = 0x40000000 then
    SdmmcErrorCode.ADDR_MISALIGNED
  else if resp1 &&& 0x20000000 = 0x20000000 then
    SdmmcErrorCode.BLOCK_LEN_ERR
  else if resp1 &&& 0x10000000 = 0x10000000 then
    SdmmcErrorCode.ERASE_SEQ_ERR
  else if resp1 &&& 0x08000000 = 0x08000000 then
    SdmmcErrorCode.BAD_ERASE_PARAM
  else if resp1 &&& 0x04000000 = 0x04000000 then
    SdmmcErrorCode.WRITE_PROT_VIOLATION
  else if resp1 &&& 0x01000000 = 0x01000000 then
    SdmmcErrorCode.LOCK_UNLOCK_FAILED
  else if resp1 &&& 0x00800000 = 0x00800000 then
    SdmmcErrorCode.COM_CRC_FAILED
  else if resp1 &&& 0x00400000 = 0x00400000 then
    SdmmcErrorCode.ILLEGAL_CMD
  else if resp1 &&& 0x00200000 = 0x00200000 then
    SdmmcErrorCode.CARD_ECC_FAILED
  else if resp1 &&& 0x00100000 = 0x00100000 then
    SdmmcErrorCode.CC_ERR
  else if resp1 &&& 0x00040000 = 0x00040000 then
    SdmmcErrorCode.STREAM_READ_UNDERRUN
  else if resp1 &&& 0x00020000 = 0x00020000 then
    SdmmcErrorCode.STREAM_WRITE_OVERRUN
  else if resp1 &&& 0x00010000 = 0x00010000 then
    SdmmcErrorCode.CID_CSD_OVERWRITE
  else if resp1 &&& 0x00008000 = 0x00008000 then
    SdmmcErrorCode.WP_ERASE_SKIP
  else if resp1 &&& 0x00004000 = 0x00004000 then
    SdmmcErrorCode.CARD_ECC_DISABLED
  else if resp1 &&& 0x00002000 = 0x00002000 then
    SdmmcErrorCode.ERASE_RESET
  else if resp1 &&& 0x00000008 = 0x00000008 then
    SdmmcErrorCode.AKE_SEQ_ERR
  else
    SdmmcErrorCode.GENERAL_UNKNOWN_ERR

/-- Snapshot of the SD controller registers a response wait reads and writes:
sticky status bits, the echoed command index and the first response word. -/
structure SdState where
  ctimeout : Bool
  ccrcfail : Bool
  cmdrend : Bool
  cmdsent : Bool
  respcmd : Nat
  resp1 : Nat
deriving DecidableEq

/-- Modelled from the spec: SdHandle::clear_all_static_status_flags is defined
outside the two given source files; per the spec's "clears sticky flags" it
resets every sticky status bit of the controller. -/
def clear_all_static_status_flags (s : SdState) : SdState :=
  { s with ctimeout := false, ccrcfail := false, cmdrend := false, cmdsent := false }

/-- SdHandle::correct_resp_command_number: the echoed command index register
equals the issued command index. -/
def correct_resp_command_number (cmd_index : Nat) (s : SdState) : Bool :=
  s.respcmd = cmd_index

/-- One polling iteration of SdHandle::get_response1: command timeout first
(clearing its flag), then CRC failure (clearing its flag), then response-end:
on response-end the echoed index is checked (mismatch returns CMD_CRC_FAIL
with no register write), then all static status flags are cleared and the
card-status word is decoded through check_ocr_error_bits. -/
def get_response1 (cmd_index : Nat) (s : SdState) :
    Option (SdmmcErrorCode × SdState) :=
  if s.ctimeout then
    some (SdmmcErrorCode.CMD_RSP_TIMEOUT, { s with ctimeout := false })
  else if s.ccrcfail then
    some (SdmmcErrorCode.CMD_CRC_FAIL, { s with ccrcfail := false })
  else if s.cmdrend then
    if ¬correct_resp_command_number cmd_index s then
      some (SdmmcErrorCode.CMD_CRC_FAIL, s)
    else
      some (check_ocr_error_bits s.resp1, clear_all_static_status_flags s)
  else
    none

/-- One polling iteration of SdHandle::get_response2: timeout, CRC failure,
then response-end means plain success. -/
def get_response2 (s : SdState) : Option (SdmmcErrorCode × SdState) :=
  if s.ctimeout then
    some (SdmmcErrorCode.CMD_RSP_TIMEOUT, { s with ctimeout := false })
  else if s.ccrcfail then
    some (SdmmcErrorCode.CMD_CRC_FAIL, { s with ccrcfail := false })
  else if s.cmdrend then
    some (SdmmcErrorCode.NONE, clear_all_static_status_flags s)
  else
    none

/-- One polling iteration of SdHandle::get_response3: timeout first; then a
CRC failure OR response-end both count as success (R3 carries no valid CRC). -/
def get_response3 (s : SdState) : Option (SdmmcErrorCode × SdState) :=
  if s.ctimeout then
    some (SdmmcErrorCode.CMD_RSP_TIMEOUT, { s with ctimeout := false })
  else if s.ccrcfail || s.cmdrend then
    some (SdmmcErrorCode.NONE, clear_all_static_status_flags s)
  else
    none

/-- One polling iteration of SdHandle::get_response6: like get_response1 up to
the index check; then the three R6 error bits of the status word are tested
and on success the new relative card address (upper 16 bits) is returned. -/
def get_response6 (cmd_index : Nat) (s : SdState) :
    Option (Except SdmmcErrorCode Nat × SdState) :=
  if s.ctimeout then
    some (Except.error SdmmcErrorCode.CMD_RSP_TIMEOUT, { s with ctimeout := false })
  else if s.ccrcfail then
    some (Except.error SdmmcErrorCode.CMD_CRC_FAIL, { s with ccrcfail := false })
  else if s.cmdrend then
    if ¬correct_resp_command_number cmd_index s then
      some (Except.error SdmmcErrorCode.CMD_CRC_FAIL, s)
    else
      let s1 := clear_all_static_status_flags s
      let response := s.resp1
      if response &&& 0x4000 ≠ 0 then
        some (Except.error SdmmcErrorCode.ILLEGAL_CMD, s1)
      else if response &&& 0x8000 ≠ 0 then
        some (Except.error SdmmcErrorCode.COM_CRC_FAILED, s1)
      else if response &&& 0x2000 ≠ 0 then
        some (Except.error SdmmcErrorCode.GENERAL_UNKNOWN_ERR, s1)
      else
        some (Except.ok (response >>> 16), s1)
  else
    none

/-- One polling iteration of SdHandle::get_response7: a timeout means no
version-2 support; a CRC failure or a response-end both mean success (the
respective flag is cleared). -/
def get_response7 (s : SdState) : Option (SdmmcErrorCode × SdState) :=
  if s.ctimeout then
    some (SdmmcErrorCode.CMD_RSP_TIMEOUT, { s with ctimeout := false })
  else if s.ccrcfail then
    some (SdmmcErrorCode.NONE, { s with ccrcfail := false })
  else if s.cmdrend then
    some (SdmmcErrorCode.NONE, { s with cmdrend := false })
  else
    none

/-! ## Concrete fixtures -/

/-- Memory endpoint at address 1020, Word width, 4-beat bursts, incrementing:
the spec's boundary-straddling example (a 16-byte burst starting 4 bytes
before the 1024 boundary). -/
def memNode1020 : DmaTransferNode :=
  { address := 1020
    burst_mode := BurstMode.Incremental4
    increment_mode := IncrementMode.Increment
    transaction_width := Width.Word }

/-- The same memory endpoint placed exactly on the 1024 boundary. -/
def memNode1024 : DmaTransferNode :=
  { memNode1020 with address := 1024 }

/-- The same memory endpoint at address 4: its bursts stay well below the
first 1024 boundary. -/
def memNode4 : DmaTransferNode :=
  { memNode1020 with address := 4 }

/-- Benign non-incrementing Word-wide peripheral endpoint at address 0. -/
def periphNodeFixed : DmaTransferNode :=
  { address := 0
    burst_mode := BurstMode.SingleTransfer
    increment_mode := IncrementMode.Fixed
    transaction_width := Width.Word }

/-- Single-beat incrementing Word-wide memory endpoint at address 0. -/
def memNodeSingle : DmaTransferNode :=
  { address := 0
    burst_mode := BurstMode.SingleTransfer
    increment_mode := IncrementMode.Increment
    transaction_width := Width.Word }

/-- Single-beat incrementing Byte-wide memory endpoint at address 0. -/
def memNodeByte : DmaTransferNode :=
  { address := 0
    burst_mode := BurstMode.SingleTransfer
    increment_mode := IncrementMode.Increment
    transaction_width := Width.Byte }

/-- Byte-wide fixed peripheral endpoint with 8-beat bursts. -/
def periphNodeBurst8 : DmaTransferNode :=
  { address := 0
    burst_mode := BurstMode.Incremental8
    increment_mode := IncrementMode.Fixed
    transaction_width := Width.Byte }

/-- Descriptor whose memory bursts straddle the 1024-byte boundary
(address 1020, 16-byte bursts, 16 bytes of data). -/
def tBoundary1020 : DmaTransfer :=
  DmaTransfer.new DmaStream.S0 Channel.C0 Direction.PeripheralToMemory
    periphNodeFixed memNode1020 4

/-- The same descriptor with the memory endpoint on the boundary. -/
def tBoundary1024 : DmaTransfer :=
  DmaTransfer.new DmaStream.S0 Channel.C0 Direction.PeripheralToMemory
    periphNodeFixed memNode1024 4

/-- The same descriptor with the memory endpoint at address 4, whose 16 bytes
of data end 1004 bytes before the boundary. -/
def tBoundary4 : DmaTransfer :=
  DmaTransfer.new DmaStream.S0 Channel.C0 Direction.PeripheralToMemory
    periphNodeFixed memNode4 4

/-- Descriptor failing validation: transaction count 3 is not a multiple of
the memory count factor 4. -/
def tInvalid : DmaTransfer :=
  DmaTransfer.new DmaStream.S0 Channel.C0 Direction.PeripheralToMemory
    periphNodeFixed memNode1024 3

/-- Descriptor passing every validator rule. -/
def tValid : DmaTransfer :=
  DmaTransfer.new DmaStream.S0 Channel.C0 Direction.PeripheralToMemory
    periphNodeFixed memNodeSingle 4

/-- Descriptor violating only the peripheral count factor (factor 8). -/
def tPInvalid : DmaTransfer :=
  DmaTransfer.new DmaStream.S0 Channel.C0 Direction.PeripheralToMemory
    periphNodeBurst8 memNodeByte 4

/-- Descriptor whose memory burst byte size (1) is smaller than the effective
peripheral width (4), truncating the memory count factor to zero. -/
def tZeroFactor : DmaTransfer :=
  DmaTransfer.new DmaStream.S0 Channel.C0 Direction.PeripheralToMemory
    periphNodeFixed memNodeByte 4

/-- SD register snapshot: response-end set, timeout and CRC clear, echoed
command index 5 (mismatching the issued index 7 used in the theorems). -/
def sMismatch : SdState :=
  { ctimeout := false
    ccrcfail := false
    cmdrend := true
    cmdsent := false
    respcmd := 5
    resp1 := 0 }

/-- SD register snapshot: CRC-failure flag set, timeout clear. -/
def sCrcFail : SdState :=
  { ctimeout := false
    ccrcfail := true
    cmdrend := false
    cmdsent := false
    respcmd := 0
    resp1 := 0 }

/-- Modelled from the spec: the 1 KB boundary rule as the spec states it, for
one endpoint — a burst straddles a 1024-byte boundary exactly when the total
bytes the endpoint will touch (width times count if incrementing, else width
times 1) exceed the bytes remaining to the next 1024-byte boundary and that
remainder is not an exact multiple of the endpoint's burst byte size. -/
def spec_kb_boundary_crossing (n : DmaTransferNode) (transaction_count : Nat) : Bool :=
  let width := n.transaction_width.get_size
  let burst_bytes := n.burst_mode.get_size * width
  let remainder := 1024 - n.address % 1024
  let total := width * match n.increment_mode with
    | IncrementMode.Increment => transaction_count
    | IncrementMode.Fixed => 1
  decide (total > remainder) && decide (remainder % burst_bytes ≠ 0)

/-! ## Theorems -/

/-- C1: the 1 KB boundary rule. The validator is evaluated at the spec's own
example inputs: the descriptor whose memory endpoint sits at address 1020 with
Word width and Incremental4 bursts (a 16-byte burst straddling the 1024-byte
boundary) is ACCEPTED by is_valid, although the spec's boundary rule (modelled
verbatim in spec_kb_boundary_crossing) flags it; moreover the validator
REJECTS the same configuration moved to address 4, where every burst ends 1004
bytes before the boundary and the spec rule sees no crossing. The code's
boundary test compares remainder > total where the rule stated by the spec
(and the error's own name) requires total > remainder. -/
theorem kb_boundary_rule_divergence :
    DmaTransfer.is_valid tBoundary1020 = none ∧
    spec_kb_boundary_crossing tBoundary1020.memory tBoundary1020.transaction_count = true ∧
    DmaTransfer.is_valid tBoundary1024 = none ∧
    spec_kb_boundary_crossing tBoundary1024.memory tBoundary1024.transaction_count = false ∧
    DmaTransfer.is_valid tBoundary4 = some Error.MemoryAccessWouldCrossOneKilobyteBoundary ∧
    spec_kb_boundary_crossing tBoundary4.memory tBoundary4.transaction_count = false := by
  decide

/-- C2 counterexample: on the validate-fails path execute() performs no
register writes, so a stream that was already armed before the call is still
armed when execute() returns — the stream-enable register is Enable, not
Disable. -/
theorem execute_validate_fail_leaves_armed :
    (DmaTransfer.execute id tInvalid armedState).1 =
      Except.error (Error.TransactionCountNotAMultipleOf 4) ∧
    ((DmaTransfer.execute id tInvalid armedState).2 tInvalid.stream).en =
      StreamControl.Enable :=
  ⟨rfl, rfl⟩

/-- C2 (amended): on the validate-fails path execute() propagates the
validator's error and leaves the whole register state unchanged (so the
stream-enable register keeps its prior value, Disable whenever it was Disable
before the call); whenever start() succeeds — in particular on the
hardware-error path where wait() returns failure — the stream-enable register
of the descriptor's stream is Disable after execute() returns, for every
hardware evolution hw observed by the wait loop. -/
theorem execute_stream_disabled_amended (hw : DmaState → DmaState)
    (t : DmaTransfer) (s : DmaState) :
    (∀ e, t.is_valid = some e → t.execute hw s = (Except.error e, s)) ∧
    (t.is_valid = none → t.is_ready s = true →
      ((t.execute hw s).2 t.stream).en = StreamControl.Disable) := by
  constructor
  · intro e he
    simp [DmaTransfer.execute, DmaTransfer.start, he]
  · intro hv hr
    simp [DmaTransfer.execute, DmaTransfer.start, hv, hr, DmaTransfer.stop,
      set_sxcr_en, write_stream]

/-- C2 witness: the amended theorem applied at concrete inputs — the invalid
descriptor from the reset state, and a fully valid descriptor whose execution
(under the identity hardware evolution) ends with the stream disabled. -/
theorem execute_stream_disabled_amended_witness :
    DmaTransfer.execute id tInvalid resetState =
      (Except.error (Error.TransactionCountNotAMultipleOf 4), resetState) ∧
    ((DmaTransfer.execute id tValid resetState).2 tValid.stream).en =
      StreamControl.Disable :=
  ⟨(execute_stream_disabled_amended id tInvalid resetState).1
      (Error.TransactionCountNotAMultipleOf 4) (by decide),
    (execute_stream_disabled_amended id tValid resetState).2 (by decide) (by decide)⟩

/-- C3: for every descriptor that fails validation, start() returns exactly
the validator's error and the register state of the DMA controller is
unchanged by the call (no register write at all). -/
theorem start_invalid_returns_error_no_writes (t : DmaTransfer) (s : DmaState)
    (e : Error) (h : t.is_valid = some e) :
    t.start s = (Except.error e, s) := by
  simp [DmaTransfer.start, h]

/-- C3 witness: start() on the concrete invalid descriptor from the reset
state returns the validator's error and the untouched reset state. -/
theorem start_invalid_returns_error_no_writes_witness :
    DmaTransfer.start tInvalid resetState =
      (Except.error (Error.TransactionCountNotAMultipleOf 4), resetState) :=
  start_invalid_returns_error_no_writes tInvalid resetState
    (Error.TransactionCountNotAMultipleOf 4) (by decide)

/-- C4: in any R3 poll iteration with the command-timeout flag clear,
observing the CRC-failure flag or the response-end flag set makes the wait
return success (NONE) — a CRC failure on R3 is never reported as an error. -/
theorem r3_crc_failure_is_success (s : SdState) (h1 : s.ctimeout = false)
    (h2 : s.ccrcfail = true ∨ s.cmdrend = true) :
    (get_response3 s).map Prod.fst = some SdmmcErrorCode.NONE := by
  rcases h2 with h | h <;> simp [get_response3, h1, h]

/-- C4 witness: a snapshot with only the CRC-failure flag set decodes to
success. -/
theorem r3_crc_failure_is_success_witness :
    (get_response3 sCrcFail).map Prod.fst = some SdmmcErrorCode.NONE :=
  r3_crc_failure_is_success sCrcFail rfl (Or.inl rfl)

/-- C5: OCR error-bit decoding is a pure function with fixed priority: status
word 0 decodes to success; any status word with bit 31 set decodes to
address-out-of-range no matter which other bits are set (address-out-of-range
is checked first); and general-unknown-error is only returned when the
any-error mask is nonzero yet none of the specifically listed bits matches
(it is the last resort). -/
theorem ocr_decoding_priority (r : Nat) :
    check_ocr_error_bits 0 = SdmmcErrorCode.NONE ∧
    (r.testBit 31 = true →
      check_ocr_error_bits r = SdmmcErrorCode.ADDR_OUT_OF_RANGE) ∧
    (check_ocr_error_bits r = SdmmcErrorCode.GENERAL_UNKNOWN_ERR →
      r &&& 0xFDFFE008 ≠ 0 ∧
      ¬r &&& 0x80000000 = 0x80000000 ∧
      ¬r &&& 0x40000000 = 0x40000000 ∧
      ¬r &&& 0x20000000 = 0x20000000 ∧
      ¬r &&& 0x10000000 = 0x10000000 ∧
      ¬r &&& 0x08000000 = 0x08000000 ∧
      ¬r &&& 0x04000000 = 0x04000000 ∧
      ¬r &&& 0x01000000 = 0x01000000 ∧
      ¬r &&& 0x00800000 = 0x00800000 ∧
      ¬r &&& 0x00400000 = 0x00400000 ∧
      ¬r &&& 0x00200000 = 0x00200000 ∧
      ¬r &&& 0x00100000 = 0x00100000 ∧
      ¬r &&& 0x00040000 = 0x00040000 ∧
      ¬r &&& 0x00020000 = 0x00020000 ∧
      ¬r &&& 0x00010000 = 0x00010000 ∧
      ¬r &&& 0x00008000 = 0x00008000 ∧
      ¬r &&& 0x00004000 = 0x00004000 ∧
      ¬r &&& 0x00002000 = 0x00002000 ∧
      ¬r &&& 0x00000008 = 0x00000008) := by
  refine ⟨by decide, ?_, ?_⟩
  · intro hb
    have hbit : r &&& 0x80000000 = 0x80000000 := by
      apply Nat.eq_of_testBit_eq
      intro i
      rw [Nat.testBit_land]
      by_cases hi : i = 31
      · subst hi
        rw [hb, Bool.true_and]
      · have h2 : Nat.testBit 0x80000000 i = false := by
          rw [(by norm_num : (0x80000000 : Nat) = 2 ^ 31)]
          exact Nat.testBit_two_pow_of_ne (Ne.symm hi)
        rw [h2, Bool.and_false]
    have hmask : r &&& 0xFDFFE008 ≠ 0 := by
      intro h0
      have ht : (r &&& 0xFDFFE008).testBit 31 = false := by
        rw [h0]
        exact Nat.zero_testBit 31
      rw [Nat.testBit_land, hb, Bool.true_and] at ht
      exact absurd ht (by decide)
    unfold check_ocr_error_bits
    rw [if_neg hmask, if_pos hbit]
  · intro h
    unfold check_ocr_error_bits at h
    by_cases h0 : r &&& 0xFDFFE008 = 0
    · rw [if_pos h0] at h
      exact absurd h (by decide)
    rw [if_neg h0] at h
    by_cases h1 : r &&& 0x80000000 = 0x80000000
    · rw [if_pos h1] at h
      exact absurd h (by decide)
    rw [if_neg h1] at h
    by_cases h2 : r &&& 0x40000000 = 0x40000000
    · rw [if_pos h2] at h
      exact absurd h (by decide)
    rw [if_neg h2] at h
    by_cases h3 : r &&& 0x20000000 = 0x20000000
    · rw [if_pos h3] at h
      exact absurd h (by decide)
    rw [if_neg h3] at h
    by_cases h4 : r &&& 0x10000000 = 0x10000000
    · rw [if_pos h4] at h
      exact absurd h (by decide)
    rw [if_neg h4] at h
    by_cases h5 : r &&& 0x08000000 = 0x08000000
    · rw [if_pos h5] at h
      exact absurd h (by decide)
    rw [if_neg h5] at h
    by_cases h6 : r &&& 0x04000000 = 0x04000000
    · rw [if_pos h6] at h
      exact absurd h (by decide)
    rw [if_neg h6] at h
    by_cases h7 : r &&& 0x01000000 = 0x01000000
    · rw [if_pos h7] at h
      exact absurd h (by decide)
    rw [if_neg h7] at h
    by_cases h8 : r &&& 0x00800000 = 0x00800000
    · rw [if_pos h8] at h
      exact absurd h (by decide)
    rw [if_neg h8] at h
    by_cases h9 : r &&& 0x00400000 = 0x00400000
    · rw [if_pos h9] at h
      exact absurd h (by decide)
    rw [if_neg h9] at h
    by_cases h10 : r &&& 0x00200000 = 0x00200000
    · rw [if_pos h10] at h
      exact absurd h (by decide)
    rw [if_neg h10] at h
    by_cases h11 : r &&& 0x00100000 = 0x00100000
    · rw [if_pos h11] at h
      exact absurd h (by decide)
    rw [if_neg h11] at h
    by_cases h12 : r &&& 0x00040000 = 0x00040000
    · rw [if_pos h12] at h
      exact absurd h (by decide)
    rw [if_neg h12] at h
    by_cases h13 : r &&& 0x00020000 = 0x00020000
    · rw [if_pos h13] at h
      exact absurd h (by decide)
    rw [if_neg h13] at h
    by_cases h14 : r &&& 0x00010000 = 0x00010000
    · rw [if_pos h14] at h
      exact absurd h (by decide)
    rw [if_neg h14] at h
    by_cases h15 : r &&& 0x00008000 = 0x00008000
    · rw [if_pos h15] at h
      exact absurd h (by decide)
    rw [if_neg h15] at h
    by_cases h16 : r &&& 0x00004000 = 0x00004000
    · rw [if_pos h16] at h
      exact absurd h (by decide)
    rw [if_neg h16] at h
    by_cases h17 : r &&& 0x00002000 = 0x00002000
    · rw [if_pos h17] at h
      exact absurd h (by decide)
    rw [if_neg h17] at h
    by_cases h18 : r &&& 0x00000008 = 0x00000008
    · rw [if_pos h18] at h
      exact absurd h (by decide)
    rw [if_neg h18] at h
    exact ⟨h0, h1, h2, h3, h4, h5, h6, h7, h8, h9, h10, h11, h12, h13, h14, h15, h16, h17, h18⟩

/-- C5 witness: the priority theorem applied at the concrete status words
0xC0000000 (bits 31 and 30 both set, decoding to address-out-of-range) and
0x00080000 (only unlisted mask bit 19 set, decoding to general-unknown). -/
theorem ocr_decoding_priority_witness :
    check_ocr_error_bits 0xC0000000 = SdmmcErrorCode.ADDR_OUT_OF_RANGE ∧
    (0x00080000 : Nat) &&& 0xFDFFE008 ≠ 0 :=
  ⟨(ocr_decoding_priority 0xC0000000).2.1 (by decide),
    ((ocr_decoding_priority 0x00080000).2.2 (by decide)).1⟩

/-- C6: in any R1 or R6 poll iteration that observes the response-end flag
with the timeout and CRC-failure flags clear, an echoed command index that
differs from the issued index makes the wait return the CRC-failure error
code (with no register write). -/
theorem resp_index_mismatch_yields_crc_fail (cmd_index : Nat) (s : SdState)
    (h1 : s.ctimeout = false) (h2 : s.ccrcfail = false) (h3 : s.cmdrend = true)
    (h4 : s.respcmd ≠ cmd_index) :
    get_response1 cmd_index s = some (SdmmcErrorCode.CMD_CRC_FAIL, s) ∧
    get_response6 cmd_index s =
      some (Except.error SdmmcErrorCode.CMD_CRC_FAIL, s) := by
  constructor <;>
    simp [get_response1, get_response6, correct_resp_command_number, h1, h2, h3, h4]

/-- C6 witness: the mismatch snapshot (echoed index 5, issued index 7). -/
theorem resp_index_mismatch_yields_crc_fail_witness :
    get_response1 7 sMismatch = some (SdmmcErrorCode.CMD_CRC_FAIL, sMismatch) ∧
    get_response6 7 sMismatch =
      some (Except.error SdmmcErrorCode.CMD_CRC_FAIL, sMismatch) :=
  resp_index_mismatch_yields_crc_fail 7 sMismatch rfl rfl rfl (by decide)

/-- C7: the transaction count must be an exact multiple of both the memory
count factor (memory-burst-bytes / effective-peripheral-width) and the
peripheral count factor (peripheral-burst-bytes); a memory-side violation
(including a zero factor) yields TransactionCountNotAMultipleOf carrying the
memory factor, and a peripheral-side violation (with the memory side
satisfied) yields TransactionCountNotAMultipleOf carrying the peripheral
factor. -/
theorem transaction_count_factor_rule (t : DmaTransfer) :
    ((t.mcount_factor = 0 ∨ t.transaction_count % t.mcount_factor ≠ 0) →
      t.is_valid = some (Error.TransactionCountNotAMultipleOf t.mcount_factor)) ∧
    (t.mcount_factor ≠ 0 → t.transaction_count % t.mcount_factor = 0 →
      t.transaction_count % t.pcount_factor ≠ 0 →
      t.is_valid = some (Error.TransactionCountNotAMultipleOf t.pcount_factor)) := by
  constructor
  · intro h
    simp only [DmaTransfer.is_valid]
    rw [if_pos h]
  · intro hm1 hm2 hp
    simp only [DmaTransfer.is_valid]
    rw [if_neg (by push_neg; exact ⟨hm1, hm2⟩), if_pos hp]

/-- C7 witness: count 3 against memory factor 4, and count 4 against
peripheral factor 8. -/
theorem transaction_count_factor_rule_witness :
    DmaTransfer.is_valid tInvalid =
      some (Error.TransactionCountNotAMultipleOf 4) ∧
    DmaTransfer.is_valid tPInvalid =
      some (Error.TransactionCountNotAMultipleOf 8) :=
  ⟨(transaction_count_factor_rule tInvalid).1 (Or.inr (by decide)),
    (transaction_count_factor_rule tPInvalid).2 (by decide) (by decide) (by decide)⟩

/-- C8: for every newly constructed descriptor the direct-mode flag is
derived exactly from the constructor arguments: Enable if and only if
transaction_count times the peripheral transaction width in bytes is below
16, Disable otherwise. -/
theorem direct_mode_derived_from_count (stream : DmaStream) (channel : Channel)
    (direction : Direction) (peripheral memory : DmaTransferNode)
    (transaction_count : Nat) (h : transaction_count < 65536) :
    (DmaTransfer.new stream channel direction peripheral memory
        transaction_count).direct_mode = DirectMode.Enable ↔
      transaction_count * peripheral.transaction_width.get_size < 16 := by
  have hw4 : peripheral.transaction_width.get_size ≤ 4 := by
    cases peripheral.transaction_width <;> decide
  have hlt : transaction_count * peripheral.transaction_width.get_size < 2 ^ 32 := by
    calc transaction_count * peripheral.transaction_width.get_size
        ≤ 65535 * 4 := Nat.mul_le_mul (by omega) hw4
      _ < 2 ^ 32 := by norm_num
  simp only [DmaTransfer.new]
  rw [Nat.mod_eq_of_lt hlt]
  split_ifs with hge
  · simp only [FIFO_SIZE] at hge
    constructor
    · intro hEn
      exact absurd hEn (by decide)
    · intro hsm
      omega
  · simp only [FIFO_SIZE] at hge
    constructor
    · intro _
      omega
    · intro _
      rfl

/-- C8 witness: count 2 with a Word-wide peripheral endpoint gives
2 * 4 = 8 < 16, so direct mode is enabled. -/
theorem direct_mode_derived_from_count_witness :
    (DmaTransfer.new DmaStream.S0 Channel.C0 Direction.PeripheralToMemory
        periphNodeFixed memNodeSingle 2).direct_mode = DirectMode.Enable ↔
      2 * periphNodeFixed.transaction_width.get_size < 16 :=
  direct_mode_derived_from_count DmaStream.S0 Channel.C0
    Direction.PeripheralToMemory periphNodeFixed memNodeSingle 2 (by decide)

/-- C9 counterexample: an R1 wait that returns the CRC-failure error code
because of an echoed-command-index mismatch (response-end set, echoed index 5
against issued index 7) performs no register write at all: the response-end
sticky flag is still set in the returned state, so no offending flag was
cleared before the error code was returned. -/
theorem index_mismatch_clears_no_flag :
    get_response1 7 sMismatch = some (SdmmcErrorCode.CMD_CRC_FAIL, sMismatch) ∧
    sMismatch.cmdrend = true ∧
    sMismatch.ccrcfail = false := by
  exact ⟨rfl, rfl, rfl⟩

/-- C9 (amended): whenever an R1, R2 or R6 wait returns the CRC-failure error
code because the CRC-failure status flag was set, that sticky flag has been
cleared before the error code is returned; an echoed-command-index mismatch,
however, returns the CRC-failure error code with the register state
completely unchanged (the response-end flag stays set). -/
theorem crc_failure_clears_flag_amended (cmd_index : Nat) (s : SdState)
    (h1 : s.ctimeout = false) :
    (s.ccrcfail = true →
      (∃ s1, get_response1 cmd_index s = some (SdmmcErrorCode.CMD_CRC_FAIL, s1) ∧
        s1.ccrcfail = false) ∧
      (∃ s2, get_response2 s = some (SdmmcErrorCode.CMD_CRC_FAIL, s2) ∧
        s2.ccrcfail = false) ∧
      (∃ s6, get_response6 cmd_index s =
          some (Except.error SdmmcErrorCode.CMD_CRC_FAIL, s6) ∧
        s6.ccrcfail = false)) ∧
    (s.ccrcfail = false → s.cmdrend = true → s.respcmd ≠ cmd_index →
      get_response1 cmd_index s = some (SdmmcErrorCode.CMD_CRC_FAIL, s) ∧
      get_response6 cmd_index s =
        some (Except.error SdmmcErrorCode.CMD_CRC_FAIL, s)) := by
  constructor
  · intro hc
    refine ⟨⟨{ s with ccrcfail := false }, ?_, rfl⟩,
      ⟨{ s with ccrcfail := false }, ?_, rfl⟩,
      ⟨{ s with ccrcfail := false }, ?_, rfl⟩⟩ <;>
      simp [get_response1, get_response2, get_response6, h1, hc]
  · intro hc hr hm
    constructor <;>
      simp [get_response1, get_response6, correct_resp_command_number, h1, hc, hr, hm]

/-- C9 witness: the amended theorem applied at the CRC-failure snapshot and
at the index-mismatch snapshot. -/
theorem crc_failure_clears_flag_amended_witness :
    (∃ s1, get_response1 55 sCrcFail = some (SdmmcErrorCode.CMD_CRC_FAIL, s1) ∧
      s1.ccrcfail = false) ∧
    get_response1 7 sMismatch = some (SdmmcErrorCode.CMD_CRC_FAIL, sMismatch) :=
  ⟨((crc_failure_clears_flag_amended 55 sCrcFail rfl).1 rfl).1,
    ((crc_failure_clears_flag_amended 7 sMismatch rfl).2 rfl rfl (by decide)).1⟩

/-- C10: when the memory burst byte size is smaller than the effective
peripheral width the memory count factor truncates to zero; validation is
total on that input and returns TransactionCountNotAMultipleOf carrying
factor 0 (the source guards the modulo behind the zero test, so no division
or remainder by zero is ever taken). -/
theorem mcount_factor_zero_total (t : DmaTransfer)
    (h : t.mburst_size < t.pwidth) :
    t.is_valid = some (Error.TransactionCountNotAMultipleOf 0) := by
  have h0 : t.mcount_factor = 0 := Nat.div_eq_of_lt h
  simp only [DmaTransfer.is_valid]
  rw [if_pos (Or.inl h0), h0]

/-- C10 witness: a Byte-wide single-beat memory endpoint (burst byte size 1)
against a Word-wide peripheral (effective width 4). -/
theorem mcount_factor_zero_total_witness :
    DmaTransfer.is_valid tZeroFactor =
      some (Error.TransactionCountNotAMultipleOf 0) :=
  mcount_factor_zero_total tZeroFactor (by decide)
